import Mathlib

/-!
Shallow embedding of the time-emulation shims (`src/shims/time.rs`):
`system_time_to_duration`, `clock_gettime`, `gettimeofday`,
`GetSystemTimeAsFileTime` and `mach_absolute_time`, together with the
surrounding machine state they touch (target OS, isolation flag, monotonic
time anchor, guest last-error state, guest memory writes).

Host clock reads (`SystemTime::now`, `Instant::now`) are nondeterministic,
so they are passed in as an explicit oracle (`Host`), and every shim also
returns the list of host-clock-read events it performed, in execution
order, so that ordering claims (isolation gate before any clock read) are
statable.
-/

/-- Rust `std::time::Duration`, represented by its total length in
nanoseconds. A `Duration` is non-negative by construction. -/
structure Duration where
  nanos : Nat
  deriving DecidableEq

/-- Rust `Duration::as_secs`: the whole-seconds part. -/
def Duration.as_secs (d : Duration) : Nat := d.nanos / 1000000000

/-- Rust `Duration::subsec_nanos`: the sub-second remainder in nanoseconds. -/
def Duration.subsec_nanos (d : Duration) : Nat := d.nanos % 1000000000

/-- Rust `Duration::subsec_micros`: the sub-second remainder in microseconds. -/
def Duration.subsec_micros (d : Duration) : Nat := d.subsec_nanos / 1000

/-- Rust `Duration::as_nanos`: total nanoseconds. -/
def Duration.as_nanos (d : Duration) : Nat := d.nanos

/-- Rust `Duration::from_secs`. -/
def Duration.from_secs (s : Nat) : Duration := ⟨s * 1000000000⟩

/-- Rust `Duration + Duration`. -/
def Duration.add (a b : Duration) : Duration := ⟨a.nanos + b.nanos⟩

/-- Failure modes of an `InterpResult`. `unsupFormat` models
`err_unsup_format!` (a fatal unsupported-operation error), `panicked`
models a Rust panic (`unwrap` on `Err`), and the remaining constructors
model the failures of the external collaborators used by the shims. -/
inductive InterpError where
  /-- Fatal `err_unsup_format!` error with its message. -/
  | unsupFormat (msg : String)
  /-- Modelled from the spec: `check_no_isolation(op)` fails with an
  isolation violation naming the operation when isolation is enabled. -/
  | isolationViolation (op : String)
  /-- Modelled from the spec: `assert_target_os` aborts the run when the
  configured guest target does not match the call (fatal, not guest-visible). -/
  | targetMismatch (os : String) (op : String)
  /-- Modelled from the spec: `deref_operand` fails on a guest pointer that
  cannot be dereferenced. -/
  | derefFailure
  /-- A Rust panic, e.g. `Result::unwrap` on an `Err`. -/
  | panicked
  deriving DecidableEq

/-- A host-clock-read event performed by a shim. -/
inductive Event where
  /-- A read of the host wall clock, `SystemTime::now()`. -/
  | readWall
  /-- A read of the host monotonic clock, `Instant::now()`. -/
  | readMono
  deriving DecidableEq

/-- The machine state the time shims interact with: the configured guest
target OS, whether isolation is enabled, the process-wide monotonic time
anchor (`this.machine.time_anchor`, as a host-monotonic reading in
nanoseconds), the guest-visible last-error state, and a log of the writes
performed into guest memory (`write_packed_immediates` appends the written
place together with the list of field values, in field order). -/
structure Machine where
  target_os : String
  isolation : Bool
  time_anchor : Nat
  last_error : Option Int
  writes : List (Nat × List Int)
  deriving DecidableEq

/-- The host clock oracle for one call: what `SystemTime::now()` would
return (signed nanoseconds relative to the Unix epoch; negative means
before the epoch) and what `Instant::now()` would return (host-monotonic
nanoseconds). -/
structure Host where
  wall_now : Int
  mono_now : Nat
  deriving DecidableEq

/-- The result of one shim call: the `InterpResult` value, the machine
state afterwards, and the host-clock-read events in execution order. -/
abbrev ShimResult (α : Type) := Except InterpError α × Machine × List Event

/-- Modelled from the spec: `eval_libc_i32("CLOCK_REALTIME")` for the Linux
target. -/
def CLOCK_REALTIME : Int := 0

/-- Modelled from the spec: `eval_libc_i32("CLOCK_MONOTONIC")` for the
Linux target. -/
def CLOCK_MONOTONIC : Int := 1

/-- Modelled from the spec: `eval_libc("EINVAL")` (same value on the Linux
and macOS targets). -/
def EINVAL : Int := 22

/-- Modelled from the spec: `helpers::immty_from_int_checked` builds an
immediate from a signed value after checking it fits the given layout
(here: the layout's width in bits, two's-complement signed range). -/
def immty_from_int_checked (v : Int) (bits : Nat) : Except InterpError Int :=
  if -(2 ^ (bits - 1) : Int) ≤ v ∧ v < 2 ^ (bits - 1) then .ok v
  else .error (.unsupFormat "signed value does not fit in layout")

/-- Modelled from the spec: `helpers::immty_from_uint_checked` builds an
immediate from an unsigned value after checking it fits the given layout
width. -/
def immty_from_uint_checked (v : Nat) (bits : Nat) : Except InterpError Nat :=
  if v < 2 ^ bits then .ok v
  else .error (.unsupFormat "unsigned value does not fit in layout")

/-- Rust `u32::try_from(..).unwrap()`: succeeds with the value when it fits
in 32 bits, otherwise the `unwrap` panics. -/
def u32_try_from_unwrap (v : Nat) : Except InterpError Nat :=
  if v < 2 ^ 32 then .ok v else .error .panicked

/-- Rust `u64::try_from(..)` with the `map_err` used for the tick count:
succeeds when the value fits in 64 bits, otherwise the fatal unsupported
error of `GetSystemTimeAsFileTime`. -/
def u64_try_from (v : Nat) : Except InterpError Nat :=
  if v < 2 ^ 64 then .ok v
  else .error (.unsupFormat
    "programs running more than 2^64 Windows ticks after the Windows epoch are not supported")

/-- `system_time_to_duration`: the time elapsed between the provided
`SystemTime` and the Unix epoch as a `Duration`;
`SystemTime::duration_since(UNIX_EPOCH)` fails exactly when the time is
before the epoch, which the shim maps to a fatal `err_unsup_format!`. -/
def system_time_to_duration (time : Int) : Except InterpError Duration :=
  if time < 0 then
    .error (.unsupFormat "times before the Unix epoch are not supported")
  else
    .ok ⟨time.toNat⟩

/-- The monotonic duration used by `clock_gettime(CLOCK_MONOTONIC)` and
`mach_absolute_time`: `Instant::now().duration_since(this.machine.time_anchor)`.
The anchor is captured at or before any reading, so the truncated
subtraction is exact in every reachable state. -/
def monotonic_duration (m : Machine) (h : Host) : Duration :=
  ⟨h.mono_now - m.time_anchor⟩

/-- Shared tail of `clock_gettime`, taking the already-decomposed
`tv_sec = duration.as_secs()` and `tv_nsec = duration.subsec_nanos()`:
build the two checked immediates for the `time_t` and `c_long` layouts
(64-bit on the Linux target) and write them into the dereferenced `tp`
place. -/
def write_timespec (m : Machine) (p : Nat) (tv_sec tv_nsec : Int)
    (evs : List Event) : ShimResult Int :=
  match immty_from_int_checked tv_sec 64, immty_from_int_checked tv_nsec 64 with
  | .error e, _ => (.error e, m, evs)
  | .ok _, .error e => (.error e, m, evs)
  | .ok a, .ok b => (.ok 0, { m with writes := m.writes ++ [(p, [a, b])] }, evs)

/-- `clock_gettime(clk_id_op, tp_op)` for the Linux target. The operands
are given after decoding: `clk_id` is the `i32` read from `clk_id_op`, and
`tp` is the result of `deref_operand(tp_op)` (`none` when the pointer
cannot be dereferenced). Order follows the source: `assert_target_os`,
`check_no_isolation`, read `clk_id`, dereference `tp`, then dispatch on
`clk_id`. -/
def clock_gettime (m : Machine) (h : Host) (clk_id : Int) (tp : Option Nat) :
    ShimResult Int :=
  if m.target_os ≠ "linux" then
    (.error (.targetMismatch "linux" "clock_gettime"), m, [])
  else if m.isolation then
    (.error (.isolationViolation "clock_gettime"), m, [])
  else
    match tp with
    | none => (.error .derefFailure, m, [])
    | some p =>
      if clk_id = CLOCK_REALTIME then
        match system_time_to_duration h.wall_now with
        | .error e => (.error e, m, [.readWall])
        | .ok duration =>
          write_timespec m p (duration.as_secs : Int) (duration.subsec_nanos : Int)
            [.readWall]
      else if clk_id = CLOCK_MONOTONIC then
        write_timespec m p ((monotonic_duration m h).as_secs : Int)
          ((monotonic_duration m h).subsec_nanos : Int) [.readMono]
      else
        (.ok (-1), { m with last_error := some EINVAL }, [])

/-- `gettimeofday(tv_op, tz_op)` for the macOS target. `tz` is the pointer
scalar read from `tz_op` (0 is the guest null pointer) and `tv` is the
result of `deref_operand(tv_op)`. Order follows the source:
`assert_target_os`, `check_no_isolation`, read `tz` and reject non-null,
dereference `tv`, read the wall clock, decompose into `tv_sec` and
`tv_usec = duration.subsec_micros()`, marshal with the `time_t` (64-bit)
and `suseconds_t` (32-bit) layouts. -/
def gettimeofday (m : Machine) (h : Host) (tz : Int) (tv : Option Nat) :
    ShimResult Int :=
  if m.target_os ≠ "macos" then
    (.error (.targetMismatch "macos" "gettimeofday"), m, [])
  else if m.isolation then
    (.error (.isolationViolation "gettimeofday"), m, [])
  else if tz ≠ 0 then
    (.ok (-1), { m with last_error := some EINVAL }, [])
  else
    match tv with
    | none => (.error .derefFailure, m, [])
    | some p =>
      match system_time_to_duration h.wall_now with
      | .error e => (.error e, m, [.readWall])
      | .ok duration =>
        let tv_sec : Int := duration.as_secs
        let tv_usec : Int := duration.subsec_micros
        match immty_from_int_checked tv_sec 64, immty_from_int_checked tv_usec 32 with
        | .error e, _ => (.error e, m, [.readWall])
        | .ok _, .error e => (.error e, m, [.readWall])
        | .ok a, .ok b =>
          (.ok 0, { m with writes := m.writes ++ [(p, [a, b])] }, [.readWall])

/-- Modelled from the spec: `eval_windows_u64("time", "NANOS_PER_SEC")`,
read from the Windows target's standard library constants. -/
def NANOS_PER_SEC : Nat := 1000000000

/-- Modelled from the spec: `eval_windows_u64("time", "INTERVALS_PER_SEC")`
(100-nanosecond intervals per second). -/
def INTERVALS_PER_SEC : Nat := 10000000

/-- Modelled from the spec: `eval_windows_u64("time", "INTERVALS_TO_UNIX_EPOCH")`,
the number of 100ns intervals between the Windows epoch (1601-01-01) and
the Unix epoch (1970-01-01): `11_644_473_600 * INTERVALS_PER_SEC`. -/
def INTERVALS_TO_UNIX_EPOCH : Nat := 11644473600 * 10000000

/-- `NANOS_PER_INTERVAL` as computed in `GetSystemTimeAsFileTime`. -/
def NANOS_PER_INTERVAL : Nat := NANOS_PER_SEC / INTERVALS_PER_SEC

/-- `SECONDS_TO_UNIX_EPOCH` as computed in `GetSystemTimeAsFileTime`. -/
def SECONDS_TO_UNIX_EPOCH : Nat := INTERVALS_TO_UNIX_EPOCH / INTERVALS_PER_SEC

/-- `dwLowDateTime` as computed in `GetSystemTimeAsFileTime`:
`duration_ticks & 0x00000000FFFFFFFF`. -/
def dwLowDateTime (duration_ticks : Nat) : Nat :=
  duration_ticks &&& 0x00000000FFFFFFFF

/-- `dwHighDateTime` as computed in `GetSystemTimeAsFileTime`:
`(duration_ticks & 0xFFFFFFFF00000000) >> 32`. -/
def dwHighDateTime (duration_ticks : Nat) : Nat :=
  (duration_ticks &&& 0xFFFFFFFF00000000) >>> 32

/-- The final `write_packed_immediates(this.deref_operand(LPFILETIME_op)?, &imms)`
of `GetSystemTimeAsFileTime`: dereference the `LPFILETIME` operand (which
the source does only after computing the immediates) and append the two
DWORD immediates, low word first, at the dereferenced place. -/
def write_filetime_words (m : Machine) (lpft : Option Nat) (a b : Int)
    (evs : List Event) : ShimResult Unit :=
  match lpft with
  | none => (.error .derefFailure, m, evs)
  | some p => (.ok (), { m with writes := m.writes ++ [(p, [a, b])] }, evs)

/-- Tail of `GetSystemTimeAsFileTime` after the 64-bit tick count is
obtained: split it into `dwLowDateTime` and `dwHighDateTime` with
`u32::try_from(..).unwrap()`, build the two DWORD immediates, and marshal
them (low word first) through `write_filetime_words`. -/
def filetime_of_ticks (m : Machine) (duration_ticks : Nat) (lpft : Option Nat) :
    ShimResult Unit :=
  match u32_try_from_unwrap (dwLowDateTime duration_ticks),
        u32_try_from_unwrap (dwHighDateTime duration_ticks) with
  | .error e, _ => (.error e, m, [.readWall])
  | .ok _, .error e => (.error e, m, [.readWall])
  | .ok lo, .ok hi =>
    match immty_from_uint_checked lo 32, immty_from_uint_checked hi 32 with
    | .error e, _ => (.error e, m, [.readWall])
    | .ok _, .error e => (.error e, m, [.readWall])
    | .ok a, .ok b => write_filetime_words m lpft (a : Int) (b : Int) [.readWall]

/-- Middle of `GetSystemTimeAsFileTime`: convert the offset wall-clock
duration to 100ns ticks, `u64::try_from` failing fatally on overflow. -/
def filetime_of_duration (m : Machine) (duration : Duration) (lpft : Option Nat) :
    ShimResult Unit :=
  match u64_try_from (duration.as_nanos / NANOS_PER_INTERVAL) with
  | .error e => (.error e, m, [.readWall])
  | .ok duration_ticks => filetime_of_ticks m duration_ticks lpft

/-- Body of `GetSystemTimeAsFileTime` after the target and isolation gates:
read the wall clock, add `Duration::from_secs(SECONDS_TO_UNIX_EPOCH)`, and
continue with the tick conversion. -/
def filetime_body (m : Machine) (h : Host) (lpft : Option Nat) : ShimResult Unit :=
  match system_time_to_duration h.wall_now with
  | .error e => (.error e, m, [.readWall])
  | .ok d =>
    filetime_of_duration m
      (Duration.add d (Duration.from_secs SECONDS_TO_UNIX_EPOCH)) lpft

/-- `GetSystemTimeAsFileTime(LPFILETIME_op)` for the Windows target.
`lpft` is the result of `deref_operand(LPFILETIME_op)`, which the source
performs only after computing the immediates (line 114). Order follows the
source: `assert_target_os`, `check_no_isolation`, wall-clock read plus
epoch offset (`filetime_body`), 100ns tick conversion with a fatal
unsupported error when the count does not fit in 64 bits
(`filetime_of_duration`), low/high word split and DWORD marshalling
(`filetime_of_ticks`, `write_filetime_words`). -/
def GetSystemTimeAsFileTime (m : Machine) (h : Host) (lpft : Option Nat) :
    ShimResult Unit :=
  if m.target_os ≠ "windows" then
    (.error (.targetMismatch "windows" "GetSystemTimeAsFileTime"), m, [])
  else if m.isolation then
    (.error (.isolationViolation "GetSystemTimeAsFileTime"), m, [])
  else
    filetime_body m h lpft

/-- `mach_absolute_time()` for the macOS target: the monotonic duration
since the time anchor, in plain nanoseconds, returned by value
(`u64::try_from(duration.as_nanos())`, fatal unsupported error when it
does not fit in 64 bits). It takes `&self`, so the machine state is
unchanged. -/
def mach_absolute_time (m : Machine) (h : Host) : ShimResult Nat :=
  if m.target_os ≠ "macos" then
    (.error (.targetMismatch "macos" "mach_absolute_time"), m, [])
  else if m.isolation then
    (.error (.isolationViolation "mach_absolute_time"), m, [])
  else
    let duration := monotonic_duration m h
    if duration.as_nanos < 2 ^ 64 then
      (.ok duration.as_nanos, m, [.readMono])
    else
      (.error (.unsupFormat
        "programs running longer than 2^64 nanoseconds are not supported"),
        m, [.readMono])

/-- C1: for every duration `d ≥ 0` (every `Duration` is non-negative), the
decomposition used by `clock_gettime` and `gettimeofday` satisfies:
`subsec_nanos ∈ [0, 1_000_000_000)`, `subsec_micros ∈ [0, 1_000_000)`, and
`as_secs * 1_000_000_000 + subsec_nanos` reconstructs `d` exactly in
nanoseconds. -/
theorem duration_decomposition_roundtrip (d : Duration) :
    d.subsec_nanos < 1000000000 ∧
    d.subsec_micros < 1000000 ∧
    d.as_secs * 1000000000 + d.subsec_nanos = d.as_nanos := by
  have h : d.nanos % 1000000000 < 1000000000 := Nat.mod_lt _ (by norm_num)
  refine ⟨h, ?_, ?_⟩
  · have := h
    unfold Duration.subsec_micros Duration.subsec_nanos
    omega
  · unfold Duration.as_secs Duration.subsec_nanos Duration.as_nanos
    omega

/-- C2: `clock_gettime` with a `clk_id` equal to neither `CLOCK_REALTIME`
nor `CLOCK_MONOTONIC`, and `gettimeofday` with a non-null `tz` argument,
install guest error `EINVAL` via the last-error state, return `-1`, and do
not write the guest output buffer (`tp` / `tv`): the write log is
unchanged and only `last_error` is updated. No host clock is read. -/
theorem einval_guest_errors (m m2 : Machine) (h h2 : Host) (clk_id : Int)
    (p q : Nat) (tz : Int)
    (hlin : m.target_os = "linux") (hiso : m.isolation = false)
    (h0 : clk_id ≠ CLOCK_REALTIME) (h1 : clk_id ≠ CLOCK_MONOTONIC)
    (hmac : m2.target_os = "macos") (hiso2 : m2.isolation = false)
    (htz : tz ≠ 0) :
    clock_gettime m h clk_id (some p) =
      (.ok (-1), { m with last_error := some EINVAL }, []) ∧
    gettimeofday m2 h2 tz (some q) =
      (.ok (-1), { m2 with last_error := some EINVAL }, []) := by
  constructor
  · simp [clock_gettime, hlin, hiso, h0, h1]
  · simp [gettimeofday, hmac, hiso2, htz]

/-- Witness for C2 at `clk_id = 7` and `tz = 5`. -/
theorem einval_guest_errors_witness :
    clock_gettime ⟨"linux", false, 0, none, []⟩ ⟨0, 0⟩ 7 (some 0) =
      (.ok (-1), ⟨"linux", false, 0, some EINVAL, []⟩, []) ∧
    gettimeofday ⟨"macos", false, 0, none, []⟩ ⟨0, 0⟩ 5 (some 0) =
      (.ok (-1), ⟨"macos", false, 0, some EINVAL, []⟩, []) :=
  einval_guest_errors ⟨"linux", false, 0, none, []⟩ ⟨"macos", false, 0, none, []⟩
    ⟨0, 0⟩ ⟨0, 0⟩ 7 0 0 5 rfl rfl (by decide) (by decide) rfl rfl (by decide)

/-- C3: a host wall-clock reading earlier than the Unix epoch makes
`system_time_to_duration` fail with a fatal unsupported-operation error,
and hence every call that consumes the wall clock (`clock_gettime` with
`CLOCK_REALTIME`, `gettimeofday` with null `tz`, `GetSystemTimeAsFileTime`)
fails with that same fatal error: the value is never clamped to zero, and
the machine state (in particular `last_error`) is unchanged, so no
guest-visible error code is installed. -/
theorem pre_epoch_wall_clock_fatal (m : Machine) (h : Host) (p q r : Nat)
    (hiso : m.isolation = false) (hw : h.wall_now < 0) :
    system_time_to_duration h.wall_now =
      .error (.unsupFormat "times before the Unix epoch are not supported") ∧
    clock_gettime { m with target_os := "linux" } h CLOCK_REALTIME (some p) =
      (.error (.unsupFormat "times before the Unix epoch are not supported"),
        { m with target_os := "linux" }, [.readWall]) ∧
    gettimeofday { m with target_os := "macos" } h 0 (some q) =
      (.error (.unsupFormat "times before the Unix epoch are not supported"),
        { m with target_os := "macos" }, [.readWall]) ∧
    GetSystemTimeAsFileTime { m with target_os := "windows" } h (some r) =
      (.error (.unsupFormat "times before the Unix epoch are not supported"),
        { m with target_os := "windows" }, [.readWall]) := by
  refine ⟨?_, ?_, ?_, ?_⟩
  · simp [system_time_to_duration, hw]
  · simp [clock_gettime, system_time_to_duration, hiso, hw]
  · simp [gettimeofday, system_time_to_duration, hiso, hw]
  · simp [GetSystemTimeAsFileTime, filetime_body, system_time_to_duration, hiso, hw]

/-- Witness for C3 at a wall-clock reading 5 nanoseconds before the epoch. -/
theorem pre_epoch_wall_clock_fatal_witness :
    system_time_to_duration (Host.mk (-5) 0).wall_now =
      .error (.unsupFormat "times before the Unix epoch are not supported") ∧
    clock_gettime { Machine.mk "x" false 0 none [] with target_os := "linux" }
        ⟨-5, 0⟩ CLOCK_REALTIME (some 0) =
      (.error (.unsupFormat "times before the Unix epoch are not supported"),
        { Machine.mk "x" false 0 none [] with target_os := "linux" }, [.readWall]) ∧
    gettimeofday { Machine.mk "x" false 0 none [] with target_os := "macos" }
        ⟨-5, 0⟩ 0 (some 0) =
      (.error (.unsupFormat "times before the Unix epoch are not supported"),
        { Machine.mk "x" false 0 none [] with target_os := "macos" }, [.readWall]) ∧
    GetSystemTimeAsFileTime { Machine.mk "x" false 0 none [] with target_os := "windows" }
        ⟨-5, 0⟩ (some 0) =
      (.error (.unsupFormat "times before the Unix epoch are not supported"),
        { Machine.mk "x" false 0 none [] with target_os := "windows" }, [.readWall]) :=
  pre_epoch_wall_clock_fatal ⟨"x", false, 0, none, []⟩ ⟨-5, 0⟩ 0 0 0 rfl (by decide)

/-- C4: with isolation enabled, each of the four calls fails with an
isolation violation naming the operation, the machine state is unchanged,
and the event trace is empty: no host time source (`SystemTime::now` or
`Instant::now`) is read, so no nondeterministic host value is observed
even transiently. -/
theorem isolation_blocks_time_calls (m : Machine) (h : Host) (clk_id : Int)
    (tp tv lpft : Option Nat) (tz : Int) (hiso : m.isolation = true) :
    clock_gettime { m with target_os := "linux" } h clk_id tp =
      (.error (.isolationViolation "clock_gettime"),
        { m with target_os := "linux" }, []) ∧
    gettimeofday { m with target_os := "macos" } h tz tv =
      (.error (.isolationViolation "gettimeofday"),
        { m with target_os := "macos" }, []) ∧
    GetSystemTimeAsFileTime { m with target_os := "windows" } h lpft =
      (.error (.isolationViolation "GetSystemTimeAsFileTime"),
        { m with target_os := "windows" }, []) ∧
    mach_absolute_time { m with target_os := "macos" } h =
      (.error (.isolationViolation "mach_absolute_time"),
        { m with target_os := "macos" }, []) := by
  refine ⟨?_, ?_, ?_, ?_⟩ <;>
    simp [clock_gettime, gettimeofday, GetSystemTimeAsFileTime,
      mach_absolute_time, hiso]

/-- Witness for C4 on an isolated machine. -/
theorem isolation_blocks_time_calls_witness :
    clock_gettime { Machine.mk "y" true 0 none [] with target_os := "linux" }
        ⟨3, 4⟩ 0 (some 0) =
      (.error (.isolationViolation "clock_gettime"),
        { Machine.mk "y" true 0 none [] with target_os := "linux" }, []) ∧
    gettimeofday { Machine.mk "y" true 0 none [] with target_os := "macos" }
        ⟨3, 4⟩ 0 (some 0) =
      (.error (.isolationViolation "gettimeofday"),
        { Machine.mk "y" true 0 none [] with target_os := "macos" }, []) ∧
    GetSystemTimeAsFileTime { Machine.mk "y" true 0 none [] with target_os := "windows" }
        ⟨3, 4⟩ (some 0) =
      (.error (.isolationViolation "GetSystemTimeAsFileTime"),
        { Machine.mk "y" true 0 none [] with target_os := "windows" }, []) ∧
    mach_absolute_time { Machine.mk "y" true 0 none [] with target_os := "macos" }
        ⟨3, 4⟩ =
      (.error (.isolationViolation "mach_absolute_time"),
        { Machine.mk "y" true 0 none [] with target_os := "macos" }, []) :=
  isolation_blocks_time_calls ⟨"y", true, 0, none, []⟩ ⟨3, 4⟩ 0
    (some 0) (some 0) (some 0) 0 rfl

/-- C9: `clock_gettime` dereferences the output pointer before `clk_id` is
compared against the known clock ids: for every `clk_id` (in particular an
unrecognized one), a call whose output pointer cannot be dereferenced
fails with the dereference error, the machine is unchanged (so `EINVAL` is
not installed) and `-1` is not returned. -/
theorem clock_gettime_deref_before_clk_id (m : Machine) (h : Host)
    (clk_id : Int) (hlin : m.target_os = "linux") (hiso : m.isolation = false) :
    clock_gettime m h clk_id none = (.error .derefFailure, m, []) := by
  simp [clock_gettime, hlin, hiso]

/-- Witness for C9 at unrecognized `clk_id = 7`. -/
theorem clock_gettime_deref_before_clk_id_witness :
    clock_gettime ⟨"linux", false, 0, none, []⟩ ⟨0, 0⟩ 7 none =
      (.error .derefFailure, ⟨"linux", false, 0, none, []⟩, []) :=
  clock_gettime_deref_before_clk_id ⟨"linux", false, 0, none, []⟩ ⟨0, 0⟩ 7 rfl rfl

/-- The low-word mask keeps exactly the low 32 bits: `t & 0xFFFFFFFF = t % 2^32`. -/
theorem dwLowDateTime_eq_mod (t : Nat) : dwLowDateTime t = t % 2 ^ 32 := by
  have hmask : (0x00000000FFFFFFFF : Nat) = 2 ^ 32 - 1 := by norm_num
  rw [dwLowDateTime, hmask, Nat.and_pow_two_sub_one_eq_mod]

/-- The high-word mask-and-shift keeps exactly bits 32..63:
`(t & 0xFFFFFFFF00000000) >> 32 = t / 2^32 % 2^32`. -/
theorem dwHighDateTime_eq_div_mod (t : Nat) :
    dwHighDateTime t = t / 2 ^ 32 % 2 ^ 32 := by
  have hmask : (0xFFFFFFFF00000000 : Nat) = (2 ^ 32 - 1) <<< 32 := by
    rw [Nat.shiftLeft_eq]; norm_num
  apply Nat.eq_of_testBit_eq
  intro i
  rw [dwHighDateTime, hmask]
  simp only [Nat.testBit_shiftRight, Nat.testBit_and, Nat.testBit_shiftLeft,
    Nat.testBit_two_pow_sub_one, Nat.testBit_mod_two_pow,
    ← Nat.shiftRight_eq_div_pow]
  by_cases hi : i < 32
  · simp [hi, Nat.le_add_right, Nat.add_sub_cancel_left, Bool.and_comm]
  · simp [hi]

/-- Reassembling the split words: for every 64-bit tick count,
`low | (high << 32)` reconstructs the tick count exactly. -/
theorem dwLow_or_dwHigh_shift (t : Nat) (ht : t < 2 ^ 64) :
    dwLowDateTime t ||| dwHighDateTime t <<< 32 = t := by
  rw [dwLowDateTime_eq_mod, dwHighDateTime_eq_div_mod]
  apply Nat.eq_of_testBit_eq
  intro i
  simp only [Nat.testBit_or, Nat.testBit_shiftLeft, Nat.testBit_mod_two_pow,
    ← Nat.shiftRight_eq_div_pow, Nat.testBit_shiftRight]
  by_cases h1 : i < 32
  · have h2 : ¬ (32 ≤ i) := by omega
    simp [h1, h2]
  · have h2 : 32 ≤ i := by omega
    by_cases h3 : i < 64
    · have h4 : i - 32 < 32 := by omega
      have h5 : 32 + (i - 32) = i := by omega
      simp [h1, h2, h4, h5]
    · have h4 : ¬ (i - 32 < 32) := by omega
      have h6 : t.testBit i = false := by
        apply Nat.testBit_lt_two_pow
        calc t < 2 ^ 64 := ht
          _ ≤ 2 ^ i := Nat.pow_le_pow_right (by norm_num) (by omega)
      simp [h1, h2, h4, h6]

/-- Evaluation of the checked signed-immediate constructor on an in-range value. -/
theorem immty_from_int_checked_ok (v : Int) (bits : Nat)
    (h0 : -(2 ^ (bits - 1) : Int) ≤ v) (h1 : v < 2 ^ (bits - 1)) :
    immty_from_int_checked v bits = .ok v := by
  unfold immty_from_int_checked
  exact if_pos ⟨h0, h1⟩

/-- Evaluation of the checked unsigned-immediate constructor on an in-range value. -/
theorem immty_from_uint_checked_ok (v : Nat) (bits : Nat) (h : v < 2 ^ bits) :
    immty_from_uint_checked v bits = .ok v := by
  unfold immty_from_uint_checked
  exact if_pos h

/-- Evaluation of `u32::try_from(..).unwrap()` on an in-range value. -/
theorem u32_try_from_unwrap_ok (v : Nat) (h : v < 2 ^ 32) :
    u32_try_from_unwrap v = .ok v := by
  unfold u32_try_from_unwrap
  exact if_pos h

/-- Evaluation of the tick-count `u64::try_from` on an in-range value. -/
theorem u64_try_from_ok (v : Nat) (h : v < 2 ^ 64) :
    u64_try_from v = .ok v := by
  unfold u64_try_from
  exact if_pos h

/-- Evaluation of the tick-count `u64::try_from` on an overflowing value. -/
theorem u64_try_from_overflow (v : Nat) (h : 2 ^ 64 ≤ v) :
    u64_try_from v = .error (.unsupFormat
      "programs running more than 2^64 Windows ticks after the Windows epoch are not supported") := by
  unfold u64_try_from
  exact if_neg (not_lt.mpr h)

/-- The target and isolation gates of `GetSystemTimeAsFileTime` pass on a
non-isolated Windows machine. -/
theorem GetSystemTimeAsFileTime_gates (m : Machine) (h : Host) (lpft : Option Nat)
    (hwin : m.target_os = "windows") (hiso : m.isolation = false) :
    GetSystemTimeAsFileTime m h lpft = filetime_body m h lpft := by
  simp [GetSystemTimeAsFileTime, hwin, hiso]

/-- On a wall-clock reading at or after the Unix epoch, `filetime_body`
offsets the duration by `SECONDS_TO_UNIX_EPOCH` and continues. -/
theorem filetime_body_eval (m : Machine) (h : Host) (lpft : Option Nat)
    (hw : 0 ≤ h.wall_now) :
    filetime_body m h lpft =
      filetime_of_duration m (Duration.add ⟨h.wall_now.toNat⟩
        (Duration.from_secs SECONDS_TO_UNIX_EPOCH)) lpft := by
  have c3 : (h.wall_now < 0) = False := eq_false (not_lt.mpr hw)
  simp only [filetime_body, system_time_to_duration, c3, ite_false]

/-- On a pre-epoch wall-clock reading, `filetime_body` propagates the fatal
unsupported error of `system_time_to_duration`. -/
theorem filetime_body_pre_epoch (m : Machine) (h : Host) (lpft : Option Nat)
    (hw : h.wall_now < 0) :
    filetime_body m h lpft =
      (.error (.unsupFormat "times before the Unix epoch are not supported"),
        m, [.readWall]) := by
  have c3 : (h.wall_now < 0) = True := eq_true hw
  simp only [filetime_body, system_time_to_duration, c3, ite_true]

/-- When the tick count fits in 64 bits, `filetime_of_duration` continues
with the word split. -/
theorem filetime_of_duration_ok (m : Machine) (d : Duration) (lpft : Option Nat)
    (hd : d.as_nanos / NANOS_PER_INTERVAL < 2 ^ 64) :
    filetime_of_duration m d lpft =
      filetime_of_ticks m (d.as_nanos / NANOS_PER_INTERVAL) lpft := by
  simp only [filetime_of_duration, u64_try_from_ok _ hd]

/-- When the tick count does not fit in 64 bits, `filetime_of_duration`
fails fatally. -/
theorem filetime_of_duration_overflow (m : Machine) (d : Duration)
    (lpft : Option Nat) (hd : 2 ^ 64 ≤ d.as_nanos / NANOS_PER_INTERVAL) :
    filetime_of_duration m d lpft =
      (.error (.unsupFormat
        "programs running more than 2^64 Windows ticks after the Windows epoch are not supported"),
        m, [.readWall]) := by
  simp only [filetime_of_duration, u64_try_from_overflow _ hd]

/-- The word split and DWORD marshalling of `filetime_of_ticks` succeed
whenever both words fit in 32 bits. -/
theorem filetime_of_ticks_eval (m : Machine) (t : Nat) (lpft : Option Nat)
    (h1 : dwLowDateTime t < 2 ^ 32) (h2 : dwHighDateTime t < 2 ^ 32) :
    filetime_of_ticks m t lpft =
      write_filetime_words m lpft ((dwLowDateTime t : Nat) : Int)
        ((dwHighDateTime t : Nat) : Int) [.readWall] := by
  simp only [filetime_of_ticks, u32_try_from_unwrap_ok _ h1,
    u32_try_from_unwrap_ok _ h2,
    immty_from_uint_checked_ok _ 32 h1, immty_from_uint_checked_ok _ 32 h2]

/-- `write_filetime_words` on a dereferenceable place appends the two
words, low word first. -/
theorem write_filetime_words_some (m : Machine) (p : Nat) (a b : Int)
    (evs : List Event) :
    write_filetime_words m (some p) a b evs =
      (.ok (), { m with writes := m.writes ++ [(p, [a, b])] }, evs) := by
  simp only [write_filetime_words]

/-- Evaluation of the `timespec` marshalling tail when both fields fit the
64-bit `time_t` / `c_long` layouts. -/
theorem write_timespec_ok (m : Machine) (p : Nat) (tv_sec tv_nsec : Int)
    (evs : List Event) (h0 : 0 ≤ tv_sec) (h1 : tv_sec < 2 ^ 63)
    (h2 : 0 ≤ tv_nsec) (h3 : tv_nsec < 2 ^ 63) :
    write_timespec m p tv_sec tv_nsec evs =
      (.ok 0, { m with writes :=
        m.writes ++ [(p, [tv_sec, tv_nsec])] }, evs) := by
  have e1 : immty_from_int_checked tv_sec 64 = .ok tv_sec := by
    apply immty_from_int_checked_ok
    · exact le_trans (by norm_num) h0
    · exact h1
  have e2 : immty_from_int_checked tv_nsec 64 = .ok tv_nsec := by
    apply immty_from_int_checked_ok
    · exact le_trans (by norm_num) h2
    · exact h3
  unfold write_timespec
  simp only [e1, e2]

/-- Evaluation of `clock_gettime(CLOCK_MONOTONIC)` on a dereferenceable
output pointer when the duration since the anchor stays below `2^64`
nanoseconds. -/
theorem clock_gettime_monotonic_ok (m : Machine) (h : Host) (p : Nat)
    (hlin : m.target_os = "linux") (hiso : m.isolation = false)
    (hb : h.mono_now - m.time_anchor < 2 ^ 64) :
    clock_gettime m h CLOCK_MONOTONIC (some p) =
      (.ok 0, { m with writes := m.writes ++
        [(p, [(((h.mono_now - m.time_anchor) / 1000000000 : Nat) : Int),
              (((h.mono_now - m.time_anchor) % 1000000000 : Nat) : Int)])] },
        [.readMono]) := by
  have hs : (h.mono_now - m.time_anchor) / 1000000000 < 2 ^ 63 := by
    have := Nat.div_le_self (h.mono_now - m.time_anchor) 1000000000
    omega
  have hn : (h.mono_now - m.time_anchor) % 1000000000 < 2 ^ 63 := by
    have h5 : (h.mono_now - m.time_anchor) % 1000000000 < 1000000000 :=
      Nat.mod_lt _ (by norm_num)
    omega
  have e := write_timespec_ok m p
      (((h.mono_now - m.time_anchor) / 1000000000 : Nat) : Int)
      (((h.mono_now - m.time_anchor) % 1000000000 : Nat) : Int)
      [.readMono] (Int.natCast_nonneg _) (by exact_mod_cast hs)
      (Int.natCast_nonneg _) (by exact_mod_cast hn)
  rw [hlin, hiso] at e
  simp [clock_gettime, hlin, hiso, CLOCK_REALTIME, CLOCK_MONOTONIC,
    monotonic_duration, Duration.as_secs, Duration.subsec_nanos]
  exact_mod_cast e

/-- C7: `mach_absolute_time` returns the monotonic duration since the
process-wide time anchor, converted to nanoseconds, directly as its `u64`
result; the machine state is unchanged (no guest memory write, no
guest-visible error code), and when the nanosecond count does not fit in
64 bits it fails with a fatal unsupported error. -/
theorem mach_absolute_time_returns_anchor_nanos (m : Machine) (h : Host)
    (hmac : m.target_os = "macos") (hiso : m.isolation = false) :
    ((monotonic_duration m h).as_nanos < 2 ^ 64 →
      mach_absolute_time m h =
        (.ok (monotonic_duration m h).as_nanos, m, [.readMono])) ∧
    (2 ^ 64 ≤ (monotonic_duration m h).as_nanos →
      mach_absolute_time m h =
        (.error (.unsupFormat
          "programs running longer than 2^64 nanoseconds are not supported"),
          m, [.readMono])) := by
  constructor
  · intro hlt
    simp [mach_absolute_time, hmac, hiso, hlt]
    all_goals omega
  · intro hge
    have hnlt : ¬ (monotonic_duration m h).as_nanos < 2 ^ 64 := not_lt.mpr hge
    simp [mach_absolute_time, hmac, hiso, hnlt]
    all_goals omega

/-- Witness for C7: anchor 5, monotonic reading 12, result 7 nanoseconds. -/
theorem mach_absolute_time_returns_anchor_nanos_witness :
    mach_absolute_time ⟨"macos", false, 5, none, []⟩ ⟨0, 12⟩ =
      (.ok 7, ⟨"macos", false, 5, none, []⟩, [.readMono]) :=
  (mach_absolute_time_returns_anchor_nanos ⟨"macos", false, 5, none, []⟩ ⟨0, 12⟩
    rfl rfl).1 (by decide)

/-- C8: every monotonic duration reported to the guest is current host
monotonic reading minus the immutable anchor: with the anchor at or before
the first reading and a non-decreasing host monotonic clock
(`anchor ≤ r1 ≤ r2`), `mach_absolute_time` returns exactly `rᵢ − anchor`
and `clock_gettime(CLOCK_MONOTONIC)` writes its seconds/nanoseconds
decomposition, and the reported values are non-negative (they are `Nat`s)
and non-decreasing across the two queries. -/
theorem monotonic_reports_nondecreasing (m : Machine) (w1 w2 : Int)
    (r1 r2 p : Nat) (hiso : m.isolation = false)
    (hanchor : m.time_anchor ≤ r1) (h12 : r1 ≤ r2)
    (hbound : r2 - m.time_anchor < 2 ^ 64) :
    mach_absolute_time { m with target_os := "macos" } ⟨w1, r1⟩ =
      (.ok (r1 - m.time_anchor), { m with target_os := "macos" }, [.readMono]) ∧
    mach_absolute_time { m with target_os := "macos" } ⟨w2, r2⟩ =
      (.ok (r2 - m.time_anchor), { m with target_os := "macos" }, [.readMono]) ∧
    clock_gettime { m with target_os := "linux" } ⟨w1, r1⟩ CLOCK_MONOTONIC (some p) =
      (.ok 0, { m with target_os := "linux", writes := m.writes ++
        [(p, [(((r1 - m.time_anchor) / 1000000000 : Nat) : Int),
              (((r1 - m.time_anchor) % 1000000000 : Nat) : Int)])] },
        [.readMono]) ∧
    clock_gettime { m with target_os := "linux" } ⟨w2, r2⟩ CLOCK_MONOTONIC (some p) =
      (.ok 0, { m with target_os := "linux", writes := m.writes ++
        [(p, [(((r2 - m.time_anchor) / 1000000000 : Nat) : Int),
              (((r2 - m.time_anchor) % 1000000000 : Nat) : Int)])] },
        [.readMono]) ∧
    r1 - m.time_anchor ≤ r2 - m.time_anchor ∧
    ((r1 - m.time_anchor) / 1000000000) * 1000000000 +
        (r1 - m.time_anchor) % 1000000000 ≤
      ((r2 - m.time_anchor) / 1000000000) * 1000000000 +
        (r2 - m.time_anchor) % 1000000000 := by
  have hb1 : r1 - m.time_anchor < 2 ^ 64 := by omega
  refine ⟨?_, ?_, ?_, ?_, by omega, by omega⟩
  · simp [mach_absolute_time, hiso, monotonic_duration, Duration.as_nanos, hb1]
    all_goals omega
  · simp [mach_absolute_time, hiso, monotonic_duration, Duration.as_nanos, hbound]
    all_goals omega
  · exact clock_gettime_monotonic_ok { m with target_os := "linux" } ⟨w1, r1⟩ p
      rfl hiso hb1
  · exact clock_gettime_monotonic_ok { m with target_os := "linux" } ⟨w2, r2⟩ p
      rfl hiso hbound

/-- Witness for C8: anchor 5, readings 7 then 2000000012. -/
theorem monotonic_reports_nondecreasing_witness :
    mach_absolute_time ⟨"macos", false, 5, none, []⟩ ⟨0, 7⟩ =
      (.ok 2, ⟨"macos", false, 5, none, []⟩, [.readMono]) ∧
    mach_absolute_time ⟨"macos", false, 5, none, []⟩ ⟨0, 2000000012⟩ =
      (.ok 2000000007, ⟨"macos", false, 5, none, []⟩, [.readMono]) ∧
    clock_gettime ⟨"linux", false, 5, none, []⟩ ⟨0, 7⟩ CLOCK_MONOTONIC (some 0) =
      (.ok 0, ⟨"linux", false, 5, none, [(0, [(0 : Int), (2 : Int)])]⟩, [.readMono]) ∧
    clock_gettime ⟨"linux", false, 5, none, []⟩ ⟨0, 2000000012⟩ CLOCK_MONOTONIC (some 0) =
      (.ok 0, ⟨"linux", false, 5, none, [(0, [(2 : Int), (7 : Int)])]⟩, [.readMono]) ∧
    (2 : Nat) ≤ 2000000007 ∧
    (2 / 1000000000) * 1000000000 + 2 % 1000000000 ≤
      (2000000007 / 1000000000) * 1000000000 + 2000000007 % 1000000000 :=
  monotonic_reports_nondecreasing ⟨"z", false, 5, none, []⟩ 0 0 7 2000000012 0
    rfl (by decide) (by decide) (by decide)

/-- C10: the two `u32::try_from(..).unwrap()` conversions in
`GetSystemTimeAsFileTime` never panic: for every `u64` tick count, the
value masked with `0x00000000FFFFFFFF` and the value masked with
`0xFFFFFFFF00000000` then shifted right by 32 both fit in 32 bits, so
both conversions succeed. -/
theorem filetime_words_fit_u32 (t : Nat) (ht : t < 2 ^ 64) :
    dwLowDateTime t < 2 ^ 32 ∧ dwHighDateTime t < 2 ^ 32 ∧
    u32_try_from_unwrap (dwLowDateTime t) = .ok (dwLowDateTime t) ∧
    u32_try_from_unwrap (dwHighDateTime t) = .ok (dwHighDateTime t) := by
  have h1 : dwLowDateTime t < 2 ^ 32 := by
    rw [dwLowDateTime_eq_mod]
    exact Nat.mod_lt _ (by norm_num)
  have h2 : dwHighDateTime t < 2 ^ 32 := by
    rw [dwHighDateTime_eq_div_mod]
    exact Nat.mod_lt _ (by norm_num)
  exact ⟨h1, h2, u32_try_from_unwrap_ok _ h1, u32_try_from_unwrap_ok _ h2⟩

/-- Witness for C10 at the largest 64-bit tick count. -/
theorem filetime_words_fit_u32_witness :
    dwLowDateTime 18446744073709551615 < 2 ^ 32 ∧
    dwHighDateTime 18446744073709551615 < 2 ^ 32 ∧
    u32_try_from_unwrap (dwLowDateTime 18446744073709551615) =
      .ok (dwLowDateTime 18446744073709551615) ∧
    u32_try_from_unwrap (dwHighDateTime 18446744073709551615) =
      .ok (dwHighDateTime 18446744073709551615) :=
  filetime_words_fit_u32 18446744073709551615 (by norm_num)

/-- C5: `GetSystemTimeAsFileTime` computes the tick count as the wall-clock
duration since the Unix epoch plus the fixed Unix-to-Windows epoch offset,
expressed in 100-nanosecond intervals. When the tick count fits in 64 bits
it writes the low 32 bits first and the high 32 bits second, and
`low | (high << 32)` reconstructs the tick count exactly; when it does not
fit, the call fails fatally with an unsupported error. -/
theorem GetSystemTimeAsFileTime_tick_split (m : Machine) (h : Host) (p : Nat)
    (ticks : Nat) (hwin : m.target_os = "windows") (hiso : m.isolation = false)
    (hw : 0 ≤ h.wall_now)
    (hticks : ticks = (Duration.add ⟨h.wall_now.toNat⟩
      (Duration.from_secs SECONDS_TO_UNIX_EPOCH)).as_nanos / NANOS_PER_INTERVAL) :
    (ticks < 2 ^ 64 →
      GetSystemTimeAsFileTime m h (some p) =
        (.ok (), { m with writes := m.writes ++
          [(p, [(dwLowDateTime ticks : Int), (dwHighDateTime ticks : Int)])] },
          [.readWall]) ∧
      dwLowDateTime ticks ||| dwHighDateTime ticks <<< 32 = ticks) ∧
    (2 ^ 64 ≤ ticks →
      GetSystemTimeAsFileTime m h (some p) =
        (.error (.unsupFormat
          "programs running more than 2^64 Windows ticks after the Windows epoch are not supported"),
          m, [.readWall])) := by
  subst hticks
  constructor
  · intro hlt
    have h1 : dwLowDateTime ((Duration.add ⟨h.wall_now.toNat⟩
        (Duration.from_secs SECONDS_TO_UNIX_EPOCH)).as_nanos / NANOS_PER_INTERVAL) < 2 ^ 32 := by
      rw [dwLowDateTime_eq_mod]
      exact Nat.mod_lt _ (by norm_num)
    have h2 : dwHighDateTime ((Duration.add ⟨h.wall_now.toNat⟩
        (Duration.from_secs SECONDS_TO_UNIX_EPOCH)).as_nanos / NANOS_PER_INTERVAL) < 2 ^ 32 := by
      rw [dwHighDateTime_eq_div_mod]
      exact Nat.mod_lt _ (by norm_num)
    refine ⟨?_, dwLow_or_dwHigh_shift _ hlt⟩
    exact ((((GetSystemTimeAsFileTime_gates m h (some p) hwin hiso).trans
      (filetime_body_eval m h (some p) hw)).trans
      (filetime_of_duration_ok m _ (some p) hlt)).trans
      (filetime_of_ticks_eval m _ (some p) h1 h2)).trans
      (write_filetime_words_some m p _ _ _)
  · intro hge
    exact ((GetSystemTimeAsFileTime_gates m h (some p) hwin hiso).trans
      (filetime_body_eval m h (some p) hw)).trans
      (filetime_of_duration_overflow m _ (some p) hge)

/-- Witness for C5 at wall-clock reading 0 (the Unix epoch):
tick count `INTERVALS_TO_UNIX_EPOCH = 116444736000000000`. -/
theorem GetSystemTimeAsFileTime_tick_split_witness :
    GetSystemTimeAsFileTime ⟨"windows", false, 0, none, []⟩ ⟨0, 0⟩ (some 0) =
      (.ok (), ⟨"windows", false, 0, none,
        [(0, [(dwLowDateTime 116444736000000000 : Int),
              (dwHighDateTime 116444736000000000 : Int)])]⟩,
        [.readWall]) ∧
    dwLowDateTime 116444736000000000 ||| dwHighDateTime 116444736000000000 <<< 32 =
      116444736000000000 :=
  (GetSystemTimeAsFileTime_tick_split ⟨"windows", false, 0, none, []⟩ ⟨0, 0⟩ 0
    116444736000000000 rfl rfl (by decide) (by decide)).1 (by decide)

/-- C6, counterexample: for an injected wall-clock duration of exactly
11,644,473,600 seconds after the Unix epoch, `GetSystemTimeAsFileTime`'s
computed tick count is not 0: the written low word is 2,860,318,720 and the
high word is 54,223,805, so the claim that both written words are 0 at
this input is false. -/
theorem windows_epoch_claim_counterexample :
    GetSystemTimeAsFileTime ⟨"windows", false, 0, none, []⟩
        ⟨11644473600 * 1000000000, 0⟩ (some 0) =
      (.ok (), ⟨"windows", false, 0, none,
        [(0, [(2860318720 : Int), (54223805 : Int)])]⟩, [.readWall]) ∧
    ¬ ((2860318720 : Int) = 0 ∧ (54223805 : Int) = 0) := by
  refine ⟨rfl, ?_⟩
  decide

/-- C6, amended: for an injected wall-clock duration of exactly
11,644,473,600 seconds after the Unix epoch, the computed 64-bit tick
count is 232,889,472,000,000,000 (the duration plus the fixed
Unix-to-Windows epoch offset, in 100ns ticks), written as low word
2,860,318,720 and high word 54,223,805, which reconstruct it exactly;
tick count 0 marks the Windows epoch, 11,644,473,600 seconds before the
Unix epoch, a wall-clock reading `system_time_to_duration` rejects. -/
theorem windows_epoch_offset_amended :
    (Duration.add ⟨11644473600 * 1000000000⟩
        (Duration.from_secs SECONDS_TO_UNIX_EPOCH)).as_nanos / NANOS_PER_INTERVAL =
      232889472000000000 ∧
    GetSystemTimeAsFileTime ⟨"windows", false, 0, none, []⟩
        ⟨11644473600 * 1000000000, 0⟩ (some 0) =
      (.ok (), ⟨"windows", false, 0, none,
        [(0, [(2860318720 : Int), (54223805 : Int)])]⟩, [.readWall]) ∧
    (2860318720 : Nat) ||| (54223805 : Nat) <<< 32 = 232889472000000000 ∧
    system_time_to_duration (-(11644473600 * 1000000000)) =
      .error (.unsupFormat "times before the Unix epoch are not supported") := by
  exact ⟨rfl, rfl, by decide, rfl⟩
